import Mathlib

/-!
Shallow embedding of the token issuance / rotation / revocation core of
`express-prisma-api-template` (src/modules/token/token.service.ts and its
helpers).  Timestamps are modelled as `Int` milliseconds, the Prisma `token`
table as a list of records plus an id counter, and every Prisma call as a
pure function on that store.  Random values produced by `crypto.randomBytes`
and `jwt.sign` (fresh token strings, the fresh family id) are passed in as
explicit inputs, and `Date.now()` as an explicit `now` argument.
-/

namespace TokenCore

/-- `tokenType` enum from the Prisma schema: only `refresh` rows are persisted. -/
inductive TType
  | access
  | refresh
  deriving DecidableEq

/-- One row of the `token` table (model of the Prisma `token` record). -/
structure TokenRecord where
  id : Nat
  userId : String
  token : String
  type : TType
  tokenFamily : Option String
  replacesTokenId : Option Nat
  useCount : Nat
  expiresAt : Option Int
  lastUsedAt : Option Int
  isRevoked : Bool
  revokedAt : Option Int
  revokedReason : Option String
  rememberMe : Bool
  deviceId : Option String
  deviceName : Option String
  userAgent : Option String
  ipAddress : Option String
  metadata : String
  createdAt : Int
  deriving DecidableEq

/-- The persistent token store: the `token` table plus the id sequence. -/
structure Store where
  rows : List TokenRecord
  nextId : Nat
  deriving DecidableEq

/-- Decoded JWT payload as used by the service (`sub` and `type` claims). -/
structure Payload where
  sub : String
  type : TType
  deriving DecidableEq

/-- Configuration and codec environment (`env.jwt` plus `jwt.verifyToken` and
`strToDate`); `verify` returns `none` when `jwt.verifyToken` would throw. -/
structure JwtEnv where
  verify : String → Option Payload
  expiryAccessToken : String
  expiryRefreshToken : String
  strToDate : String → Int

/-- Session context supplied by the caller (the `IToken` opts argument). -/
structure SessionCtx where
  deviceId : Option String := none
  deviceName : Option String := none
  ipAddress : Option String := none
  userAgent : Option String := none
  rememberMe : Bool := false
  metadata : String := ""
  deriving DecidableEq

/-- One returned credential with its expiry timestamp. -/
structure IssuedToken where
  token : String
  expiresAt : Int
  deriving DecidableEq

/-- The access/refresh pair returned by issuance and rotation. -/
structure TokenPair where
  access : IssuedToken
  refresh : IssuedToken
  deriving DecidableEq

/-- Failure modes of `refreshAuth` (the distinct `ApiError`s it throws). -/
inductive RotErr
  | invalidSignature
  | notRefreshToken
  | tokenNotFound
  | tokenExpired
  | reuseDetected
  deriving DecidableEq

instance {ε α : Type} [DecidableEq ε] [DecidableEq α] : DecidableEq (Except ε α) :=
  fun x y =>
  match x, y with
  | .error a, .error b =>
    if h : a = b then isTrue (h ▸ rfl) else isFalse (fun hh => h (Except.error.inj hh))
  | .error _, .ok _ => isFalse (fun hh => Except.noConfusion hh)
  | .ok _, .error _ => isFalse (fun hh => Except.noConfusion hh)
  | .ok a, .ok b =>
    if h : a = b then isTrue (h ▸ rfl) else isFalse (fun hh => h (Except.ok.inj hh))

/-- One day in milliseconds (`expiresAt.setDate(getDate() + days)`). -/
def dayMs : Int := 86400000

/-- The `where` clause of `refreshAuth`'s lookup:
`{ token, type: refresh, isRevoked: false }`. -/
def liveRefreshMatch (tok : String) (r : TokenRecord) : Bool :=
  r.token == tok && r.type == TType.refresh && r.isRevoked == false

/-- `prisma.token.findFirst` with the live-refresh `where` clause. -/
def findFirstLive (tok : String) (s : Store) : Option TokenRecord :=
  s.rows.find? (liveRefreshMatch tok)

/-- `prisma.token.delete({ where: { id } })`. -/
def deleteById (i : Nat) (s : Store) : Store :=
  { s with rows := s.rows.filter (fun r => r.id != i) }

/-- `prisma.token.updateMany({ where: { tokenFamily } })` setting
`isRevoked`, `revokedAt`, `revokedReason := "Token family revoked due to reuse"`. -/
def revokeFamily (fam : String) (now : Int) (s : Store) : Store :=
  { s with rows := s.rows.map (fun r =>
      if r.tokenFamily == some fam then
        { r with isRevoked := true, revokedAt := some now,
                 revokedReason := some "Token family revoked due to reuse" }
      else r) }

/-- `prisma.token.update({ where: { id } })` of the rotation path: sets
`lastUsedAt`, increments `useCount`, sets `isRevoked` and
`revokedReason := "Token rotated"` — and, as in the source, does NOT set
`revokedAt`. -/
def markRotated (i : Nat) (now : Int) (s : Store) : Store :=
  { s with rows := s.rows.map (fun r =>
      if r.id == i then
        { r with lastUsedAt := some now, useCount := r.useCount + 1,
                 isRevoked := true, revokedReason := some "Token rotated" }
      else r) }

/-- Arguments of `saveToken`, with the source's destructuring defaults. -/
structure SaveOpts where
  userId : String
  token : String
  deviceId : Option String := none
  ipAddress : Option String := none
  userAgent : Option String := none
  deviceName : Option String := none
  rememberMe : Bool := false
  tokenFamily : Option String := none
  replacesTokenId : Option Nat := none
  type : TType := TType.refresh
  metadata : String := ""
  expiresAt : Option Int := none

/-- `saveToken`: `prisma.token.create` with `isRevoked := false`,
`useCount := 0`; the source's default `expiresAt = new Date()` becomes
`now` when no expiry is supplied. -/
def saveToken (now : Int) (o : SaveOpts) (s : Store) : TokenRecord × Store :=
  let r : TokenRecord :=
    { id := s.nextId
      userId := o.userId
      token := o.token
      type := o.type
      tokenFamily := o.tokenFamily
      replacesTokenId := o.replacesTokenId
      useCount := 0
      expiresAt := some (o.expiresAt.getD now)
      lastUsedAt := none
      isRevoked := false
      revokedAt := none
      revokedReason := none
      rememberMe := o.rememberMe
      deviceId := o.deviceId
      deviceName := o.deviceName
      userAgent := o.userAgent
      ipAddress := o.ipAddress
      metadata := o.metadata
      createdAt := now }
  (r, { rows := s.rows ++ [r], nextId := s.nextId + 1 })

/-- The refresh-side expiry policy: now + 30 days when `rememberMe`, else
now + 7 days (`const expirationDays = rememberMe ? 30 : 7`). -/
def refreshExpiry (now : Int) (rememberMe : Bool) : Int :=
  now + (if rememberMe then (30 : Int) else 7) * dayMs

/-- `tokenDoc.expiresAt && tokenDoc.expiresAt.getTime() < Date.now()`. -/
def isExpired (now : Int) (r : TokenRecord) : Bool :=
  match r.expiresAt with
  | some t => t < now
  | none => false

/-- `generateLoginTokens`: mints the pair (the freshly signed strings and the
fresh random family are inputs), persists ONE refresh row via `saveToken`
with the policy expiry, and returns both tokens with their expiries.  The
access expiry comes from `strToDate(env.jwt.expiryAccessToken)`; the stored
refresh expiry is the day-based policy, not the signed claim. -/
def generateLoginTokens (env : JwtEnv) (now : Int)
    (accessToken refreshToken tokenFamily : String)
    (userId : String) (ctx : SessionCtx) (s : Store) : TokenPair × Store :=
  let expiresAt := refreshExpiry now ctx.rememberMe
  let st := saveToken now
    { userId := userId
      token := refreshToken
      deviceId := ctx.deviceId
      deviceName := ctx.deviceName
      ipAddress := ctx.ipAddress
      userAgent := ctx.userAgent
      expiresAt := some expiresAt
      rememberMe := ctx.rememberMe
      tokenFamily := some tokenFamily
      metadata := ctx.metadata } s
  ({ access := { token := accessToken, expiresAt := env.strToDate env.expiryAccessToken }
     refresh := { token := refreshToken, expiresAt := expiresAt } },
   st.2)

/-- Per-request inputs of `refreshAuth`: the environment, `Date.now()`, the
freshly signed replacement tokens, the presented refresh string, and the
caller's session context (`opts`). -/
structure RotInput where
  env : JwtEnv
  now : Int
  newAccessToken : String
  newRefreshToken : String
  presented : String
  ctx : SessionCtx

/-- Control point of `refreshAuth` between two consecutive store operations.
Each Prisma call is atomic at the database, but distinct calls of one
request may interleave with other requests. -/
inductive RotPhase
  | start
  | toDelete (i : Nat)
  | toRevokeFamily (fam : Option String)
  | toMark (doc : TokenRecord) (sub : String)
  | toSave (doc : TokenRecord) (sub : String)
  | done (p : TokenPair)
  | failed (e : RotErr)
  deriving DecidableEq

/-- One atomic store operation of `refreshAuth`, in source order:
verify + `findFirst`; then either the expiry `delete`, the family
`updateMany`, or the rotation `update` followed by `saveToken`. -/
def rotStep (inp : RotInput) (p : RotPhase) (s : Store) : RotPhase × Store :=
  match p with
  | .start =>
    match inp.env.verify inp.presented with
    | none => (.failed .invalidSignature, s)
    | some payload =>
      if payload.type ≠ TType.refresh then (.failed .notRefreshToken, s)
      else
        match findFirstLive inp.presented s with
        | none => (.failed .tokenNotFound, s)
        | some doc =>
          if isExpired inp.now doc then (.toDelete doc.id, s)
          else if doc.useCount > 0 then (.toRevokeFamily doc.tokenFamily, s)
          else (.toMark doc payload.sub, s)
  | .toDelete i => (.failed .tokenExpired, deleteById i s)
  | .toRevokeFamily fam =>
    match fam with
    | some f => (.failed .reuseDetected, revokeFamily f inp.now s)
    | none => (.failed .reuseDetected, s)
  | .toMark doc sub => (.toSave doc sub, markRotated doc.id inp.now s)
  | .toSave doc sub =>
    let newExpiresAt := refreshExpiry inp.now doc.rememberMe
    let st := saveToken inp.now
      { userId := sub
        token := inp.newRefreshToken
        deviceId := inp.ctx.deviceId <|> doc.deviceId
        deviceName := doc.deviceName
        ipAddress := inp.ctx.ipAddress <|> doc.ipAddress
        userAgent := inp.ctx.userAgent <|> doc.userAgent
        expiresAt := some newExpiresAt
        rememberMe := doc.rememberMe
        tokenFamily := doc.tokenFamily
        replacesTokenId := some doc.id
        metadata := doc.metadata } s
    (.done { access := { token := inp.newAccessToken
                         expiresAt := inp.env.strToDate inp.env.expiryAccessToken }
             refresh := { token := inp.newRefreshToken, expiresAt := newExpiresAt } },
     st.2)
  | .done q => (.done q, s)
  | .failed e => (.failed e, s)

/-- Read off the outcome of a finished rotation request; the catch-all arm
is unreachable after three steps. -/
def rotOutcome : RotPhase × Store → Except RotErr TokenPair × Store
  | (.done p, s1) => (.ok p, s1)
  | (.failed e, s1) => (.error e, s1)
  | (_, s1) => (.error .tokenNotFound, s1)

/-- `refreshAuth`: the whole rotation request, i.e. its store operations run
to completion without interleaving.  Three steps always reach `done` or
`failed`. -/
def refreshAuth (inp : RotInput) (s : Store) : Except RotErr TokenPair × Store :=
  let p1 := rotStep inp .start s
  let p2 := rotStep inp p1.1 p1.2
  let p3 := rotStep inp p2.1 p2.2
  rotOutcome p3

/-- `revokeRefreshToken`: `updateMany` over the live rows carrying this exact
token value; returns whether any row was affected. -/
def revokeRefreshToken (now : Int) (tok : String) (reason : String) (s : Store) :
    Bool × Store :=
  let n := (s.rows.filter (liveRefreshMatch tok)).length
  ((n > 0 : Bool),
   { s with rows := s.rows.map (fun r =>
       if liveRefreshMatch tok r then
         { r with isRevoked := true, revokedAt := some now,
                  revokedReason := some reason }
       else r) })

/-- `revokeAllForUser`: `updateMany` over the user's live refresh rows. -/
def revokeAllForUser (now : Int) (userId : String) (reason : String) (s : Store) :
    Store :=
  { s with rows := s.rows.map (fun r =>
      if r.userId == userId && r.type == TType.refresh && r.isRevoked == false then
        { r with isRevoked := true, revokedAt := some now,
                 revokedReason := some reason }
      else r) }

/-- `revokeSession`: ownership-checked single-session revocation; `none`
models the `NOT_FOUND` ApiError. -/
def revokeSession (now : Int) (userId : String) (sessionId : Nat) (s : Store) :
    Option Store :=
  match s.rows.find? (fun r =>
      r.id == sessionId && r.userId == userId && r.type == TType.refresh) with
  | none => none
  | some _ =>
    some { s with rows := s.rows.map (fun r =>
        if r.id == sessionId then
          { r with isRevoked := true, revokedAt := some now,
                   revokedReason := some "Revoked by user" }
        else r) }

/-- The `deleteMany` predicate of `cleanupExpiredTokens`:
`expiresAt < now` OR (`isRevoked` AND `revokedAt < now - 30 days`). -/
def cleanupPred (now : Int) (r : TokenRecord) : Bool :=
  (match r.expiresAt with
   | some t => t < now
   | none => false)
  ||
  (r.isRevoked &&
   (match r.revokedAt with
    | some t => t < now - 30 * dayMs
    | none => false))

/-- `cleanupExpiredTokens`: deletes the matching rows and returns the count. -/
def cleanupExpiredTokens (now : Int) (s : Store) : Nat × Store :=
  ((s.rows.filter (cleanupPred now)).length,
   { s with rows := s.rows.filter (fun r => !cleanupPred now r) })

/-- Pagination options of `utils/paginate.ts` (`sort` is not modelled; no
caller of the session listing supplies one that matters here). -/
structure PaginationOptions where
  limit : Option Nat := none
  page : Option Nat := none
  maxLimit : Option Nat := none
  deriving DecidableEq

/-- The result shape of `paginate`: the raw rows plus pagination metadata. -/
structure PaginationResult where
  data : List TokenRecord
  total : Nat
  page : Nat
  limit : Nat
  totalPages : Nat
  hasNextPage : Bool
  hasPrevPage : Bool
  deriving DecidableEq

/-- `paginate(prisma.token, options, filters)`: `findMany` with `where`,
`take`, `skip` and NO `select` — it returns whole rows, every column
included. -/
def paginate (options : PaginationOptions) (pred : TokenRecord → Bool)
    (s : Store) : PaginationResult :=
  let limit := options.limit.getD 10
  let page := options.page.getD 1
  let maxLimit := options.maxLimit.getD 100
  let sanitizedLimit := min (max 1 limit) maxLimit
  let sanitizedPage := max 1 page
  let skip := (sanitizedPage - 1) * sanitizedLimit
  let matching := s.rows.filter pred
  let total := matching.length
  let totalPages := (total + sanitizedLimit - 1) / sanitizedLimit
  { data := (matching.drop skip).take sanitizedLimit
    total := total
    page := sanitizedPage
    limit := sanitizedLimit
    totalPages := totalPages
    hasNextPage := sanitizedPage < totalPages
    hasPrevPage := sanitizedPage > 1 }

/-- Case-insensitive substring test (`contains` with `mode: "insensitive"`). -/
def containsCI (hay needle : String) : Bool :=
  needle == "" || (hay.toLower.splitOn needle.toLower).length > 1

/-- Session-listing filters (`pick(req.query, ["email", "type"])`). -/
structure SessionFilters where
  email : Option String := none
  type : Option TType := none
  deriving DecidableEq

/-- The `queryFilters` built by `listUserSessions`; the `user.email` relation
filter is modelled through `userEmail`, the user-id → email map of the
related `user` table. -/
def sessionFilterPred (userEmail : String → String) (filters : SessionFilters)
    (r : TokenRecord) : Bool :=
  (match filters.email with
   | some e => containsCI (userEmail r.userId) e
   | none => true)
  &&
  (match filters.type with
   | some t => r.type == t
   | none => true)

/-- `listUserSessions` of `token.service.ts`: a paginated `findMany` over the
token table with the email/type filters and no column selection. -/
def listUserSessions (userEmail : String → String) (options : PaginationOptions)
    (filters : SessionFilters) (s : Store) : PaginationResult :=
  paginate options (sessionFilterPred userEmail filters) s

/-- State of two rotation requests racing on one shared store. -/
structure TwoState where
  a : RotPhase
  b : RotPhase
  s : Store

/-- Let request A (`true`) or request B (`false`) perform its next atomic
store operation. -/
def twoStep (ia ib : RotInput) (t : TwoState) (pick : Bool) : TwoState :=
  if pick then
    let ps := rotStep ia t.a t.s
    { t with a := ps.1, s := ps.2 }
  else
    let ps := rotStep ib t.b t.s
    { t with b := ps.1, s := ps.2 }

/-- Run two racing rotation requests under an interleaving schedule. -/
def twoRun (ia ib : RotInput) : List Bool → TwoState → TwoState
  | [], t => t
  | c :: cs, t => twoRun ia ib cs (twoStep ia ib t c)

/-- Whether a rotation request has completed successfully with a pair. -/
def RotPhase.isDone : RotPhase → Bool
  | .done _ => true
  | _ => false

/-- The spec's invariant on one row: `revokedAt` and `revokedReason` are set
together, never independently. -/
def pairedRevocation (r : TokenRecord) : Bool :=
  r.revokedAt.isSome == r.revokedReason.isSome

/-- `pairedRevocation` on every row of the store. -/
def storePaired (s : Store) : Bool :=
  s.rows.all pairedRevocation

/-- The invariant the code actually maintains: `revokedAt` and
`revokedReason` are set together, except on rows consumed by the rotation
path, which carry `revokedReason = "Token rotated"` with no `revokedAt`. -/
def pairedOrRotated (r : TokenRecord) : Bool :=
  pairedRevocation r || r.revokedReason == some "Token rotated"

/-- `pairedOrRotated` on every row of the store. -/
def storePairedOrRotated (s : Store) : Bool :=
  s.rows.all pairedOrRotated

/-- The record created by the rotation success path (`saveToken` call of
`refreshAuth`), spelled out; `sub` is the `sub` claim of the verified
payload and `i` the id the store assigns. -/
def rotSuccessor (inp : RotInput) (sub : String) (doc : TokenRecord) (i : Nat) :
    TokenRecord :=
  { id := i
    userId := sub
    token := inp.newRefreshToken
    type := TType.refresh
    tokenFamily := doc.tokenFamily
    replacesTokenId := some doc.id
    useCount := 0
    expiresAt := some (refreshExpiry inp.now doc.rememberMe)
    lastUsedAt := none
    isRevoked := false
    revokedAt := none
    revokedReason := none
    rememberMe := doc.rememberMe
    deviceId := inp.ctx.deviceId <|> doc.deviceId
    deviceName := doc.deviceName
    userAgent := inp.ctx.userAgent <|> doc.userAgent
    ipAddress := inp.ctx.ipAddress <|> doc.ipAddress
    metadata := doc.metadata
    createdAt := inp.now }

/-! ### Concrete fixtures used by the closed theorems and witnesses -/

/-- A concrete codec environment: exactly one verifiable refresh string. -/
def demoEnv : JwtEnv :=
  { verify := fun s =>
      if s = "refresh-1" then some { sub := "user-1", type := TType.refresh }
      else none
    expiryAccessToken := "3d"
    expiryRefreshToken := "7d"
    strToDate := fun _ => 2000000260000 }

/-- A concrete request time. -/
def demoNow : Int := 2000000000000

/-- A fresh, live, unexpired refresh record for `"refresh-1"`. -/
def demoRecord : TokenRecord :=
  { id := 1
    userId := "user-1"
    token := "refresh-1"
    type := TType.refresh
    tokenFamily := some "fam-1"
    replacesTokenId := none
    useCount := 0
    expiresAt := some 2000000600000
    lastUsedAt := none
    isRevoked := false
    revokedAt := none
    revokedReason := none
    rememberMe := false
    deviceId := some "dev-1"
    deviceName := some "Laptop"
    userAgent := none
    ipAddress := none
    metadata := ""
    createdAt := 1999999000000 }

/-- A store holding exactly the fresh record. -/
def demoStore : Store :=
  { rows := [demoRecord], nextId := 2 }

/-- The rotation request presenting `"refresh-1"` with an empty context. -/
def demoInput : RotInput :=
  { env := demoEnv
    now := demoNow
    newAccessToken := "acc-2"
    newRefreshToken := "refresh-2"
    presented := "refresh-1"
    ctx := {} }

/-- A store whose only record is already used once (`useCount = 1`) but has
no token family (`tokenFamily = null`), still unrevoked and unexpired. -/
def usedNullFamStore : Store :=
  { rows := [{ demoRecord with tokenFamily := none, useCount := 1 }], nextId := 2 }

/-- A store where the presented record is already used once and a sibling of
the same family is expired but not yet revoked. -/
def reuseStore : Store :=
  { rows := [{ demoRecord with useCount := 1 },
             { demoRecord with id := 2, token := "refresh-0",
                               expiresAt := some 1999999500000 }],
    nextId := 3 }

/-- A store whose only record's `expiresAt` lies in the past. -/
def expiredStore : Store :=
  { rows := [{ demoRecord with expiresAt := some 1999999500000 }], nextId := 2 }

/-- Rotation request A of the race on `"refresh-1"`. -/
def raceA : RotInput :=
  { demoInput with newAccessToken := "acc-A", newRefreshToken := "refresh-A" }

/-- Rotation request B of the race on `"refresh-1"`. -/
def raceB : RotInput :=
  { demoInput with newAccessToken := "acc-B", newRefreshToken := "refresh-B" }

/-- Both racing requests read the fresh record before either marks it:
A reads, B reads, A marks and saves, B marks and saves. -/
def raceResult : TwoState :=
  twoRun raceA raceB [true, false, true, true, false, false]
    { a := .start, b := .start, s := demoStore }

/-- A session context that supplies every device field, in particular a
device name differing from the stored record's. -/
def ctxWithDevice : SessionCtx :=
  { deviceId := some "dev-9", deviceName := some "Phone",
    userAgent := some "UA-9", ipAddress := some "10.0.0.9" }

/-- The demo rotation request carrying `ctxWithDevice`. -/
def inputWithDevice : RotInput :=
  { demoInput with ctx := ctxWithDevice }

/-- The user-id → email map of the related `user` table, for the listing. -/
def demoUserEmail : String → String :=
  fun _ => "user-1@example.com"

/-- `demoRecord` after the family-wide reuse revocation at `demoNow`. -/
def revokedDemo : TokenRecord :=
  { demoRecord with isRevoked := true, revokedAt := some demoNow,
                    revokedReason := some "Token family revoked due to reuse" }

/-! ### General lemmas about the rotation engine -/

theorem refreshAuth_success_eq (inp : RotInput) (s : Store) (pl : Payload)
    (doc : TokenRecord)
    (hv : inp.env.verify inp.presented = some pl)
    (ht : pl.type = TType.refresh)
    (hf : findFirstLive inp.presented s = some doc)
    (hexp : isExpired inp.now doc = false)
    (huse : doc.useCount = 0) :
    refreshAuth inp s =
      (Except.ok { access := { token := inp.newAccessToken
                               expiresAt := inp.env.strToDate inp.env.expiryAccessToken }
                   refresh := { token := inp.newRefreshToken
                                expiresAt := refreshExpiry inp.now doc.rememberMe } },
       { rows := (markRotated doc.id inp.now s).rows ++ [rotSuccessor inp pl.sub doc s.nextId]
         nextId := s.nextId + 1 }) := by
  simp [refreshAuth, rotStep, hv, ht, hf, hexp, huse, rotOutcome, saveToken, rotSuccessor,
    markRotated, refreshExpiry]

theorem refreshAuth_reuse_eq (inp : RotInput) (s : Store) (pl : Payload)
    (doc : TokenRecord) (f : String)
    (hv : inp.env.verify inp.presented = some pl)
    (ht : pl.type = TType.refresh)
    (hf : findFirstLive inp.presented s = some doc)
    (hexp : isExpired inp.now doc = false)
    (huse : 0 < doc.useCount)
    (hfam : doc.tokenFamily = some f) :
    refreshAuth inp s = (Except.error RotErr.reuseDetected, revokeFamily f inp.now s) := by
  simp [refreshAuth, rotStep, hv, ht, hf, hexp, huse, hfam, rotOutcome]

theorem refreshAuth_expired_eq (inp : RotInput) (s : Store) (pl : Payload)
    (doc : TokenRecord) (t : Int)
    (hv : inp.env.verify inp.presented = some pl)
    (ht : pl.type = TType.refresh)
    (hf : findFirstLive inp.presented s = some doc)
    (het : doc.expiresAt = some t)
    (hlt : t < inp.now) :
    refreshAuth inp s = (Except.error RotErr.tokenExpired, deleteById doc.id s) := by
  have hexp : isExpired inp.now doc = true := by simp [isExpired, het, hlt]
  simp [refreshAuth, rotStep, hv, ht, hf, hexp, rotOutcome]

theorem revokeFamily_mem (f : String) (now : Int) (s : Store) (r : TokenRecord)
    (hr : r ∈ (revokeFamily f now s).rows) (hrf : r.tokenFamily = some f) :
    r.isRevoked = true ∧ r.revokedAt = some now ∧
    r.revokedReason = some "Token family revoked due to reuse" := by
  simp only [revokeFamily, List.mem_map] at hr
  obtain ⟨r0, hr0, rfl⟩ := hr
  by_cases h : r0.tokenFamily = some f
  · simp [h]
  · simp [h] at hrf

theorem all_map_of_pres {p : TokenRecord → Bool} {f : TokenRecord → TokenRecord}
    {l : List TokenRecord} (hl : l.all p = true)
    (hf : ∀ r, p r = true → p (f r) = true) : (l.map f).all p = true := by
  simp only [List.all_eq_true, List.mem_map] at hl ⊢
  rintro x ⟨r, hr, rfl⟩
  exact hf r (hl r hr)

theorem all_filter_of_all {p q : TokenRecord → Bool} {l : List TokenRecord}
    (hl : l.all p = true) : (l.filter q).all p = true := by
  simp only [List.all_eq_true] at hl ⊢
  intro x hx
  exact hl x (List.mem_of_mem_filter hx)

theorem rotStep_start_store (inp : RotInput) (s : Store) : (rotStep inp .start s).2 = s := by
  simp only [rotStep]
  cases inp.env.verify inp.presented with
  | none => rfl
  | some pl =>
    by_cases ht : pl.type ≠ TType.refresh
    · simp [ht]
    · simp only [ht, ite_false]
      cases findFirstLive inp.presented s with
      | none => rfl
      | some doc =>
        by_cases he : isExpired inp.now doc = true
        · simp [he]
        · simp only [he, ite_false]
          by_cases hu : doc.useCount > 0
          · simp [hu]
          · simp [hu]

theorem rotOutcome_store (ps : RotPhase × Store) : (rotOutcome ps).2 = ps.2 := by
  obtain ⟨p, s⟩ := ps
  cases p <;> rfl

theorem refreshAuth_store_eq (inp : RotInput) (s : Store) : (refreshAuth inp s).2 =
    (rotStep inp (rotStep inp (rotStep inp .start s).1 (rotStep inp .start s).2).1
      (rotStep inp (rotStep inp .start s).1 (rotStep inp .start s).2).2).2 := by
  simp [refreshAuth, rotOutcome_store]

theorem rotStep_preservesPOR (inp : RotInput) (p : RotPhase) (s : Store)
    (h : storePairedOrRotated s = true) :
    storePairedOrRotated (rotStep inp p s).2 = true := by
  cases p with
  | start => rw [rotStep_start_store]; exact h
  | toDelete i =>
    show storePairedOrRotated (deleteById i s) = true
    exact all_filter_of_all h
  | toRevokeFamily fam =>
    cases fam with
    | none => exact h
    | some f =>
      show storePairedOrRotated (revokeFamily f inp.now s) = true
      refine all_map_of_pres h (fun r hr => ?_)
      by_cases hc : r.tokenFamily = some f
      · simp [pairedOrRotated, pairedRevocation, hc]
      · simp [hc, hr]
  | toMark doc sub =>
    show storePairedOrRotated (markRotated doc.id inp.now s) = true
    refine all_map_of_pres h (fun r hr => ?_)
    by_cases hc : r.id = doc.id
    · simp [pairedOrRotated, pairedRevocation, hc]
    · simp [hc, hr]
  | toSave doc sub =>
    simp only [rotStep, saveToken, storePairedOrRotated, List.all_append] at h ⊢
    simp [h, pairedOrRotated, pairedRevocation]
  | done p => exact h
  | failed e => exact h

theorem refreshAuth_preservesPOR (inp : RotInput) (s : Store)
    (h : storePairedOrRotated s = true) :
    storePairedOrRotated (refreshAuth inp s).2 = true := by
  rw [refreshAuth_store_eq]
  exact rotStep_preservesPOR _ _ _ (rotStep_preservesPOR _ _ _ (rotStep_preservesPOR _ _ _ h))

theorem generateLoginTokens_preservesPOR (env : JwtEnv) (now : Int)
    (a r fam uid : String) (ctx : SessionCtx) (s : Store)
    (h : storePairedOrRotated s = true) :
    storePairedOrRotated (generateLoginTokens env now a r fam uid ctx s).2 = true := by
  simp only [generateLoginTokens, saveToken, storePairedOrRotated, List.all_append] at h ⊢
  simp [h, pairedOrRotated, pairedRevocation]

theorem revokeRefreshToken_preservesPOR (now : Int) (tok reason : String) (s : Store)
    (h : storePairedOrRotated s = true) :
    storePairedOrRotated (revokeRefreshToken now tok reason s).2 = true := by
  show (s.rows.map _).all pairedOrRotated = true
  refine all_map_of_pres h (fun r hr => ?_)
  by_cases hc : liveRefreshMatch tok r = true
  · simp [hc, pairedOrRotated, pairedRevocation]
  · simp only [Bool.not_eq_true] at hc
    simp [hc, hr]

theorem revokeAllForUser_preservesPOR (now : Int) (uid reason : String) (s : Store)
    (h : storePairedOrRotated s = true) :
    storePairedOrRotated (revokeAllForUser now uid reason s) = true := by
  show (s.rows.map _).all pairedOrRotated = true
  refine all_map_of_pres h (fun r hr => ?_)
  by_cases hc : (r.userId == uid && r.type == TType.refresh && r.isRevoked == false) = true
  · rw [if_pos hc]
    simp [pairedOrRotated, pairedRevocation]
  · rw [if_neg hc]
    exact hr

theorem revokeSession_preservesPOR (now : Int) (uid : String) (sid : Nat) (s s2 : Store)
    (hs : revokeSession now uid sid s = some s2)
    (h : storePairedOrRotated s = true) :
    storePairedOrRotated s2 = true := by
  unfold revokeSession at hs
  cases hfind : s.rows.find? (fun r => r.id == sid && r.userId == uid && r.type == TType.refresh) with
  | none => rw [hfind] at hs; exact absurd hs (by simp)
  | some r0 =>
    rw [hfind] at hs
    simp only [Option.some.injEq] at hs
    subst hs
    show (s.rows.map _).all pairedOrRotated = true
    refine all_map_of_pres h (fun r hr => ?_)
    by_cases hc : (r.id == sid) = true
    · simp [hc, pairedOrRotated, pairedRevocation]
    · simp only [Bool.not_eq_true] at hc
      simp [hc, hr]

theorem cleanup_preservesPOR (now : Int) (s : Store)
    (h : storePairedOrRotated s = true) :
    storePairedOrRotated (cleanupExpiredTokens now s).2 = true := by
  show (s.rows.filter _).all pairedOrRotated = true
  exact all_filter_of_all h

/-! ### Claim theorems -/

/-- C1 (amended): when a rotation call verifies, matches a live unexpired
record with `useCount > 0`, and that record's `tokenFamily` is non-null,
`refreshAuth` revokes every record sharing that family — setting `isRevoked`,
`revokedAt` and the reuse reason on all of them — and fails with
`reuseDetected`, returning no token pair.  (The claim's unrestricted form
fails when `tokenFamily` is null; see the counterexample.) -/
theorem C1_reuse_revokes_family (inp : RotInput) (s : Store) (pl : Payload)
    (doc : TokenRecord) (f : String)
    (hv : inp.env.verify inp.presented = some pl)
    (ht : pl.type = TType.refresh)
    (hf : findFirstLive inp.presented s = some doc)
    (hexp : isExpired inp.now doc = false)
    (huse : 0 < doc.useCount)
    (hfam : doc.tokenFamily = some f) :
    (refreshAuth inp s).1 = Except.error RotErr.reuseDetected ∧
    ∀ r ∈ (refreshAuth inp s).2.rows, r.tokenFamily = some f →
      r.isRevoked = true ∧ r.revokedAt = some inp.now ∧
      r.revokedReason = some "Token family revoked due to reuse" := by
  rw [refreshAuth_reuse_eq inp s pl doc f hv ht hf hexp huse hfam]
  exact ⟨rfl, fun r hr hrf => revokeFamily_mem f inp.now s r hr hrf⟩

/-- Witness for C1: the concrete reuse store, where every `"fam-1"` record
ends up revoked with the reuse reason and the call fails with
`reuseDetected`. -/
theorem C1_reuse_revokes_family_witness :
    (refreshAuth demoInput reuseStore).1 = Except.error RotErr.reuseDetected ∧
    ∀ r ∈ (refreshAuth demoInput reuseStore).2.rows, r.tokenFamily = some "fam-1" →
      r.isRevoked = true ∧ r.revokedAt = some demoInput.now ∧
      r.revokedReason = some "Token family revoked due to reuse" :=
  C1_reuse_revokes_family demoInput reuseStore
    { sub := "user-1", type := TType.refresh } ({ demoRecord with useCount := 1 }) "fam-1"
    (by decide) (by decide) (by decide) (by decide) (by decide) (by decide)

/-- Counterexample for C1 as frozen: on a live, unexpired, already-used
record whose `tokenFamily` is null, the call still fails with
`reuseDetected`, yet a record sharing the matched record's family value —
the matched record itself — is left entirely unrevoked. -/
theorem C1_counterexample_null_family :
    (refreshAuth demoInput usedNullFamStore).1 = Except.error RotErr.reuseDetected ∧
    ∃ r ∈ (refreshAuth demoInput usedNullFamStore).2.rows,
      r.tokenFamily = ({ demoRecord with tokenFamily := none, useCount := 1 } : TokenRecord).tokenFamily ∧
      0 < r.useCount ∧ r.isRevoked = false ∧ r.revokedAt = none := by
  decide

/-- C2: the source's read-then-mark sequence is NOT atomic — under the
interleaving in which both requests run their `findFirst` before either
runs its `update`, two concurrent rotations of the same fresh refresh token
BOTH complete successfully with a new pair, and the consumed record ends at
`useCount = 2`.  This refutes the claimed exactly-one-success guarantee. -/
theorem C2_concurrent_rotation_both_succeed :
    raceResult.a.isDone = true ∧ raceResult.b.isDone = true ∧
    ∃ r ∈ raceResult.s.rows, r.id = 1 ∧ r.useCount = 2 := by
  decide

/-- C3: rotating a fresh, unexpired refresh token succeeds exactly once:
the returned pair carries the new tokens with their expiries, the presented
record is marked `useCount = 1`, revoked with reason `"Token rotated"` and
`lastUsedAt = now`, the persisted successor lives in the same family with
`replaces` pointing at the consumed record and the same `rememberMe`, and a
repeat presentation of the same token against the updated store fails. -/
theorem C3_fresh_rotation_succeeds_once (inp : RotInput) (s : Store) (pl : Payload)
    (doc : TokenRecord)
    (hv : inp.env.verify inp.presented = some pl)
    (ht : pl.type = TType.refresh)
    (hf : findFirstLive inp.presented s = some doc)
    (hexp : isExpired inp.now doc = false)
    (huse : doc.useCount = 0)
    (huniq : ∀ r ∈ s.rows, liveRefreshMatch inp.presented r = true → r.id = doc.id)
    (hneq : inp.newRefreshToken ≠ inp.presented) :
    ((refreshAuth inp s).1 =
      Except.ok { access := { token := inp.newAccessToken
                              expiresAt := inp.env.strToDate inp.env.expiryAccessToken }
                  refresh := { token := inp.newRefreshToken
                               expiresAt := refreshExpiry inp.now doc.rememberMe } }) ∧
    ({ doc with lastUsedAt := some inp.now, useCount := 1, isRevoked := true
                revokedReason := some "Token rotated" } ∈ (refreshAuth inp s).2.rows) ∧
    ((refreshAuth inp s).2.rows.getLast? = some (rotSuccessor inp pl.sub doc s.nextId)) ∧
    ((refreshAuth inp (refreshAuth inp s).2).1 = Except.error RotErr.tokenNotFound) := by
  have hf' : s.rows.find? (liveRefreshMatch inp.presented) = some doc := hf
  have hdoc : doc ∈ s.rows := List.mem_of_find?_eq_some hf'
  have heq := refreshAuth_success_eq inp s pl doc hv ht hf hexp huse
  have hfind2 : findFirstLive inp.presented
      ({ rows := (markRotated doc.id inp.now s).rows ++ [rotSuccessor inp pl.sub doc s.nextId]
         nextId := s.nextId + 1 } : Store) = none := by
    unfold findFirstLive
    rw [List.find?_eq_none]
    intro x hx
    simp only [markRotated, List.mem_append, List.mem_map, List.mem_singleton] at hx
    rcases hx with ⟨r0, hr0, rfl⟩ | rfl
    · by_cases hid : r0.id = doc.id
      · simp [liveRefreshMatch, hid]
      · simp only [beq_iff_eq, hid, if_neg, ite_false]
        intro hmatch
        exact hid (huniq r0 hr0 hmatch)
    · simp [liveRefreshMatch, rotSuccessor, hneq]
  refine ⟨?_, ?_, ?_, ?_⟩
  · rw [heq]
  · rw [heq]
    simp only [markRotated, List.mem_append, List.mem_map]
    left
    refine ⟨doc, hdoc, ?_⟩
    simp [huse]
  · rw [heq]
    exact List.getLast?_concat _
  · rw [heq]
    simp [refreshAuth, rotStep, hv, ht, hfind2, rotOutcome]

/-- Witness for C3: the demo store's single fresh record is rotated: the
pair comes back, the consumed record is marked, the successor is appended,
and presenting `"refresh-1"` again fails. -/
theorem C3_fresh_rotation_succeeds_once_witness :
    ((refreshAuth demoInput demoStore).1 =
      Except.ok { access := { token := demoInput.newAccessToken
                              expiresAt := demoInput.env.strToDate demoInput.env.expiryAccessToken }
                  refresh := { token := demoInput.newRefreshToken
                               expiresAt := refreshExpiry demoInput.now demoRecord.rememberMe } }) ∧
    ({ demoRecord with lastUsedAt := some demoInput.now, useCount := 1, isRevoked := true
                       revokedReason := some "Token rotated" } ∈ (refreshAuth demoInput demoStore).2.rows) ∧
    ((refreshAuth demoInput demoStore).2.rows.getLast? =
      some (rotSuccessor demoInput "user-1" demoRecord demoStore.nextId)) ∧
    ((refreshAuth demoInput (refreshAuth demoInput demoStore).2).1 =
      Except.error RotErr.tokenNotFound) :=
  C3_fresh_rotation_succeeds_once demoInput demoStore
    { sub := "user-1", type := TType.refresh } demoRecord
    (by decide) (by decide) (by decide) (by decide) (by decide) (by decide) (by decide)

/-- C4: issuing a session persists exactly one new refresh record with
`useCount = 0`, `replaces = null`, the freshly generated family, and a
stored `expiresAt` of now + 30 days when `rememberMe` and now + 7 days
otherwise; it returns both tokens with their expiries, and the stored
record does not depend on the configured signed-token TTLs at all. -/
theorem C4_issue_session_record (env : JwtEnv) (now : Int) (a r fam uid : String)
    (ctx : SessionCtx) (s : Store) :
    (generateLoginTokens env now a r fam uid ctx s).2.rows =
      s.rows ++ [{ id := s.nextId, userId := uid, token := r, type := TType.refresh
                   tokenFamily := some fam, replacesTokenId := none, useCount := 0
                   expiresAt := some (now + (if ctx.rememberMe then (30 : Int) else 7) * dayMs)
                   lastUsedAt := none, isRevoked := false, revokedAt := none
                   revokedReason := none, rememberMe := ctx.rememberMe
                   deviceId := ctx.deviceId, deviceName := ctx.deviceName
                   userAgent := ctx.userAgent, ipAddress := ctx.ipAddress
                   metadata := ctx.metadata, createdAt := now }] ∧
    (generateLoginTokens env now a r fam uid ctx s).2.nextId = s.nextId + 1 ∧
    (generateLoginTokens env now a r fam uid ctx s).1 =
      { access := { token := a, expiresAt := env.strToDate env.expiryAccessToken }
        refresh := { token := r, expiresAt := now + (if ctx.rememberMe then (30 : Int) else 7) * dayMs } } ∧
    (∀ env2 : JwtEnv, (generateLoginTokens env2 now a r fam uid ctx s).2 =
      (generateLoginTokens env now a r fam uid ctx s).2) :=
  ⟨rfl, rfl, rfl, fun _ => rfl⟩

/-- C5: a rotation call that verifies and matches a live record whose
`expiresAt` lies in the past deletes exactly that record's row and fails
with `tokenExpired`, returning no token pair. -/
theorem C5_expired_token_deleted (inp : RotInput) (s : Store) (pl : Payload)
    (doc : TokenRecord) (t : Int)
    (hv : inp.env.verify inp.presented = some pl)
    (ht : pl.type = TType.refresh)
    (hf : findFirstLive inp.presented s = some doc)
    (het : doc.expiresAt = some t)
    (hlt : t < inp.now) :
    (refreshAuth inp s).1 = Except.error RotErr.tokenExpired ∧
    (refreshAuth inp s).2.rows = s.rows.filter (fun r => r.id != doc.id) ∧
    (refreshAuth inp s).2.nextId = s.nextId := by
  rw [refreshAuth_expired_eq inp s pl doc t hv ht hf het hlt]
  exact ⟨rfl, rfl, rfl⟩

/-- Witness for C5: the expired demo record is removed and the call fails
with `tokenExpired`. -/
theorem C5_expired_token_deleted_witness :
    (refreshAuth demoInput expiredStore).1 = Except.error RotErr.tokenExpired ∧
    (refreshAuth demoInput expiredStore).2.rows =
      expiredStore.rows.filter (fun r => r.id != ({ demoRecord with expiresAt := some 1999999500000 } : TokenRecord).id) ∧
    (refreshAuth demoInput expiredStore).2.nextId = expiredStore.nextId :=
  C5_expired_token_deleted demoInput expiredStore
    { sub := "user-1", type := TType.refresh }
    ({ demoRecord with expiresAt := some 1999999500000 }) 1999999500000
    (by decide) (by decide) (by decide) (by decide) (by decide)

/-- C6 (amended): every store mutation of the core preserves the relaxed
invariant in which `revokedAt` and `revokedReason` are set together EXCEPT
on records consumed by the rotation path, which carry
`revokedReason = "Token rotated"` with no `revokedAt`.  (The claim's strict
together-or-not-at-all invariant is broken by that path; see the
counterexample.) -/
theorem C6_paired_or_rotated_preserved :
    (∀ (env : JwtEnv) (now : Int) (a r fam uid : String) (ctx : SessionCtx) (s : Store),
      storePairedOrRotated s = true →
      storePairedOrRotated (generateLoginTokens env now a r fam uid ctx s).2 = true) ∧
    (∀ (inp : RotInput) (s : Store), storePairedOrRotated s = true →
      storePairedOrRotated (refreshAuth inp s).2 = true) ∧
    (∀ (now : Int) (tok reason : String) (s : Store), storePairedOrRotated s = true →
      storePairedOrRotated (revokeRefreshToken now tok reason s).2 = true) ∧
    (∀ (now : Int) (uid reason : String) (s : Store), storePairedOrRotated s = true →
      storePairedOrRotated (revokeAllForUser now uid reason s) = true) ∧
    (∀ (now : Int) (uid : String) (sid : Nat) (s s2 : Store),
      revokeSession now uid sid s = some s2 → storePairedOrRotated s = true →
      storePairedOrRotated s2 = true) ∧
    (∀ (now : Int) (s : Store), storePairedOrRotated s = true →
      storePairedOrRotated (cleanupExpiredTokens now s).2 = true) :=
  ⟨generateLoginTokens_preservesPOR, refreshAuth_preservesPOR,
   revokeRefreshToken_preservesPOR, revokeAllForUser_preservesPOR,
   revokeSession_preservesPOR, cleanup_preservesPOR⟩

/-- Witness for C6: the relaxed invariant survives issuance, rotation,
single-token revocation, bulk revocation and cleanup on the demo store. -/
theorem C6_paired_or_rotated_preserved_witness :
    storePairedOrRotated (generateLoginTokens demoEnv demoNow "acc-3" "refresh-3" "fam-3" "user-1" {} demoStore).2 = true ∧
    storePairedOrRotated (refreshAuth demoInput demoStore).2 = true ∧
    storePairedOrRotated (revokeRefreshToken demoNow "refresh-1" "user_logout" demoStore).2 = true ∧
    storePairedOrRotated (revokeAllForUser demoNow "user-1" "User logged out from all devices" demoStore) = true ∧
    storePairedOrRotated (cleanupExpiredTokens demoNow demoStore).2 = true :=
  ⟨C6_paired_or_rotated_preserved.1 demoEnv demoNow "acc-3" "refresh-3" "fam-3" "user-1" {} demoStore (by decide),
   C6_paired_or_rotated_preserved.2.1 demoInput demoStore (by decide),
   C6_paired_or_rotated_preserved.2.2.1 demoNow "refresh-1" "user_logout" demoStore (by decide),
   C6_paired_or_rotated_preserved.2.2.2.1 demoNow "user-1" "User logged out from all devices" demoStore (by decide),
   C6_paired_or_rotated_preserved.2.2.2.2.2 demoNow demoStore (by decide)⟩

/-- Counterexample for C6 as frozen: a single legitimate rotation of a
store satisfying the strict set-together invariant leaves a record with a
`revokedReason` (`"Token rotated"`) but no `revokedAt` — the rotation
`update` never writes `revokedAt`. -/
theorem C6_counterexample_rotation_breaks_pairing :
    storePaired demoStore = true ∧
    (refreshAuth demoInput demoStore).1 =
      Except.ok { access := { token := "acc-2", expiresAt := 2000000260000 }
                  refresh := { token := "refresh-2", expiresAt := demoNow + 7 * dayMs } } ∧
    storePaired (refreshAuth demoInput demoStore).2 = false ∧
    ∃ r ∈ (refreshAuth demoInput demoStore).2.rows,
      r.revokedReason = some "Token rotated" ∧ r.revokedAt = none := by
  decide

/-- C7 (amended): the cleanup sweep deletes exactly the rows whose
`expiresAt` is past or which are revoked with `revokedAt` older than the
30-day retention window, returning the deleted count; and a sweep run at
the moment of a family-wide reuse revocation keeps every row of that family
that is not itself already expired.  (The claim's unqualified "does not
delete the rows revoked by that event" fails for a family row whose
`expiresAt` had already passed; see the counterexample.) -/
theorem C7_cleanup_characterization :
    (∀ (now : Int) (s : Store) (r : TokenRecord),
      (r ∈ (cleanupExpiredTokens now s).2.rows ↔ r ∈ s.rows ∧ cleanupPred now r = false) ∧
      (cleanupExpiredTokens now s).1 = (s.rows.filter (cleanupPred now)).length) ∧
    (∀ (now : Int) (f : String) (s : Store) (r : TokenRecord),
      r ∈ (revokeFamily f now s).rows → r.tokenFamily = some f →
      isExpired now r = false →
      r ∈ (cleanupExpiredTokens now (revokeFamily f now s)).2.rows) := by
  constructor
  · intro now s r
    constructor
    · simp [cleanupExpiredTokens, List.mem_filter]
    · rfl
  · intro now f s r hr hrf hexp
    obtain ⟨hrev, hat, hreason⟩ := revokeFamily_mem f now s r hr hrf
    have hcp : cleanupPred now r = false := by
      simp only [cleanupPred, Bool.or_eq_false_iff]
      constructor
      · exact hexp
      · simp only [hrev, hat, Bool.true_and, decide_eq_false_iff_not]
        simp only [dayMs]
        omega
    exact List.mem_filter.mpr ⟨hr, by simp [hcp]⟩

/-- Witness for C7: the characterization at the demo record, and survival
of the freshly reuse-revoked, unexpired demo record under an immediate
sweep. -/
theorem C7_cleanup_characterization_witness :
    ((demoRecord ∈ (cleanupExpiredTokens demoNow demoStore).2.rows ↔
        demoRecord ∈ demoStore.rows ∧ cleanupPred demoNow demoRecord = false) ∧
     (cleanupExpiredTokens demoNow demoStore).1 =
        (demoStore.rows.filter (cleanupPred demoNow)).length) ∧
    revokedDemo ∈ (cleanupExpiredTokens demoNow (revokeFamily "fam-1" demoNow demoStore)).2.rows :=
  ⟨C7_cleanup_characterization.1 demoNow demoStore demoRecord,
   C7_cleanup_characterization.2 demoNow "fam-1" demoStore revokedDemo
     (by decide) (by decide) (by decide)⟩

/-- Counterexample for C7 as frozen: a reuse event on `reuseStore` revokes
the expired sibling (id 2) — `revokedAt = now` — yet the sweep run
immediately afterwards deletes that row (through the expiry branch), before
any retention window has elapsed. -/
theorem C7_counterexample_expired_reuse_row_deleted :
    (refreshAuth demoInput reuseStore).1 = Except.error RotErr.reuseDetected ∧
    (∃ r ∈ (refreshAuth demoInput reuseStore).2.rows,
      r.id = 2 ∧ r.isRevoked = true ∧ r.revokedAt = some demoNow) ∧
    ∀ r ∈ (cleanupExpiredTokens demoNow (refreshAuth demoInput reuseStore).2).2.rows,
      r.id ≠ 2 := by
  decide

/-- C8: the paginated session listing of `token.service.ts` issues a
`findMany` with no column selection, so its output rows include the raw
stored refresh-token string — here `"refresh-1"` — contradicting the
never-return-the-raw-token requirement. -/
theorem C8_listing_contains_raw_token :
    ∃ r ∈ (listUserSessions demoUserEmail {} {} demoStore).data,
      r.type = TType.refresh ∧ r.token = "refresh-1" := by
  decide

/-- C9 (amended): on a successful rotation, the successor's `deviceId`,
`userAgent` and `ipAddress` take the caller's values when supplied and fall
back to the consumed record's, and `rememberMe`, `metadata` and `family`
are inherited — but `deviceName` is ALWAYS inherited from the consumed
record, never taken from the caller.  (The claim includes `deviceName`
among the overridable fields; see the counterexample.) -/
theorem C9_device_field_inheritance (inp : RotInput) (s : Store) (pl : Payload)
    (doc : TokenRecord)
    (hv : inp.env.verify inp.presented = some pl)
    (ht : pl.type = TType.refresh)
    (hf : findFirstLive inp.presented s = some doc)
    (hexp : isExpired inp.now doc = false)
    (huse : doc.useCount = 0) :
    ∃ nr, (refreshAuth inp s).2.rows.getLast? = some nr ∧
      nr.deviceId = (inp.ctx.deviceId <|> doc.deviceId) ∧
      nr.deviceName = doc.deviceName ∧
      nr.userAgent = (inp.ctx.userAgent <|> doc.userAgent) ∧
      nr.ipAddress = (inp.ctx.ipAddress <|> doc.ipAddress) ∧
      nr.rememberMe = doc.rememberMe ∧
      nr.metadata = doc.metadata ∧
      nr.tokenFamily = doc.tokenFamily ∧
      nr.replacesTokenId = some doc.id := by
  refine ⟨rotSuccessor inp pl.sub doc s.nextId, ?_, rfl, rfl, rfl, rfl, rfl, rfl, rfl, rfl⟩
  rw [refreshAuth_success_eq inp s pl doc hv ht hf hexp huse]
  exact List.getLast?_concat _

/-- Witness for C9: a rotation whose context supplies every device field;
the successor takes the context's `deviceId`, `userAgent`, `ipAddress` and
the stored record's `deviceName`. -/
theorem C9_device_field_inheritance_witness :
    ∃ nr, (refreshAuth inputWithDevice demoStore).2.rows.getLast? = some nr ∧
      nr.deviceId = (inputWithDevice.ctx.deviceId <|> demoRecord.deviceId) ∧
      nr.deviceName = demoRecord.deviceName ∧
      nr.userAgent = (inputWithDevice.ctx.userAgent <|> demoRecord.userAgent) ∧
      nr.ipAddress = (inputWithDevice.ctx.ipAddress <|> demoRecord.ipAddress) ∧
      nr.rememberMe = demoRecord.rememberMe ∧
      nr.metadata = demoRecord.metadata ∧
      nr.tokenFamily = demoRecord.tokenFamily ∧
      nr.replacesTokenId = some demoRecord.id :=
  C9_device_field_inheritance inputWithDevice demoStore
    { sub := "user-1", type := TType.refresh } demoRecord
    (by decide) (by decide) (by decide) (by decide) (by decide)

/-- Counterexample for C9 as frozen: the caller supplies
`deviceName = "Phone"`, but the successor record keeps the consumed
record's `"Laptop"` — the rotation's `saveToken` call passes
`tokenDoc.deviceName` with no `opts` fallback. -/
theorem C9_counterexample_deviceName_not_overridden :
    inputWithDevice.ctx.deviceName = some "Phone" ∧
    (refreshAuth inputWithDevice demoStore).2.rows.getLast?.map TokenRecord.deviceName =
      some (some "Laptop") := by
  decide

/-- C10: on a live, unexpired record with `useCount > 0` and a null
`tokenFamily`, `refreshAuth` fails with `reuseDetected` — whose message
announces that all sessions were revoked — while leaving the store
completely unchanged: the family-wide revocation is silently skipped. -/
theorem C10_null_family_reuse_skips_revocation :
    refreshAuth demoInput usedNullFamStore =
      (Except.error RotErr.reuseDetected, usedNullFamStore) := by
  decide

end TokenCore
